import Mathlib

/-!
# IP filtering API handlers (server/channels/api4/ip_filtering.go)

A shallow embedding of the three handlers `getIPFilters`, `applyIPFilters`
and `myIP`, of the admission gate `ensureIPFilteringInterface` they share,
and of the goroutine that `applyIPFilters` starts after a successful store
mutation.

Go pointers to collaborators become plain values, `nil` becomes `none`, a Go
`error` becomes `Option String` (the text of `err.Error()`), and every call a
handler makes on a collaborator is appended to `Context.effects`, so that
"no store call" or "exactly one audit record" are statements about that list.
-/

namespace Api4

/-! ## Data declared outside ip_filtering.go -/

/-- The payload type `model.AllowedIPRanges`: a list of ranges. The handlers
never look inside a range, so a range is represented by its text. -/
abbrev AllowedIPRanges := List String

/-- The two permissions the handlers ask for. -/
inductive Permission
  | PermissionSysconsoleReadIPFilters
  | PermissionSysconsoleWriteIPFilters
  deriving DecidableEq

/-- Modelled from the spec: the constant `model.LicenseShortSkuEnterprise`
is declared outside ip_filtering.go; it is the one SKU the capability
requires, and only equality with it is ever used. -/
def LicenseShortSkuEnterprise : String := "enterprise"

/-- The constant `http.StatusNotImplemented`. -/
def StatusNotImplemented : Nat := 501

/-- The constant `http.StatusInternalServerError`. -/
def StatusInternalServerError : Nat := 500

/-- The constant `http.StatusForbidden`. -/
def StatusForbidden : Nat := 403

/-- The constant `http.StatusBadRequest`. -/
def StatusBadRequest : Nat := 400

/-- The value stored in `c.Err`: either what `model.NewAppError` was called
with (caller name, message id, detail text, HTTP status; the params argument
is `nil` at every call site), or the error `c.SetPermissionError` stores for
a permission. -/
inductive AppError
  | app (where_ : String) (id : String) (detail : String) (status : Nat)
  | permission (perm : Permission)
  deriving DecidableEq

/-- Modelled from the spec: `model.NewAppError` is declared outside
ip_filtering.go. The call `model.NewAppError(where, id, nil, details, status)`
gives an error that records its arguments; the status is the code the
HTTP-facing surface answers with. -/
def NewAppError (where_ id details : String) (status : Nat) : AppError :=
  AppError.app where_ id details status

/-- Modelled from the spec: `AppError.StatusCode` of a permission error.
`Context.SetPermissionError` is not in ip_filtering.go; the spec
(External interfaces, HTTP-facing surface) gives `403 Forbidden` for a failed
permission gate. An error built by `NewAppError` has the status it was given. -/
def AppError.StatusCode : AppError → Nat
  | .app _ _ _ status => status
  | .permission _ => StatusForbidden

/-- The license, as far as the handlers read it: `SkuShortName` and the
result of `IsCloud()`. -/
structure License where
  SkuShortName : String
  Cloud : Bool

/-- Modelled from the spec: `(*License).IsCloud` is declared outside
ip_filtering.go; the license provider gives `isCloud` for a present license,
and an absent license is not a cloud license. -/
def License.IsCloud : Option License → Bool
  | none => false
  | some l => l.Cloud

/-- The store behind `einterfaces.IPFilteringInterface`: for each method the
pair `(value, err)` it returns. -/
structure IPFilteringInterface where
  GetIPFilters : AllowedIPRanges × Option String
  ApplyIPFilters : AllowedIPRanges → AllowedIPRanges × Option String

/-- The fields of `model.User` the notification reads. -/
structure User where
  Id : String
  Email : String
  Locale : String
  deriving DecidableEq

/-- The field of `model.CloudCustomer` the handler reads. -/
structure CloudCustomer where
  Email : String

/-- The field of `model.Session` the handlers read. -/
structure Session where
  UserId : String

/-- The six arguments of one `SendIPFiltersChangedEmail` call, in order. -/
structure SendArgs where
  email : String
  initiatingUser : User
  siteURL : String
  cwsURL : String
  locale : String
  isWorkspaceOwner : Bool
  deriving DecidableEq

/-- What the handlers reach through `c.App`. Lookups return the Go pair
`(value, err)`. `GetSystemAdminProfiles` gives the administrators in the
order in which `range users` visits them. `SendIPFiltersChangedEmail k args`
is the error (if any) of the send made after `k` earlier sends, so that every
pattern of per-recipient failures can be expressed. -/
structure App where
  IPFiltering : Option IPFilteringInterface
  CloudIPFiltering : Bool
  License : Option License
  SessionHasPermissionTo : Session → Permission → Bool
  GetCloudCustomer : String → Option CloudCustomer × Option String
  GetProfileByIds : List String → List User × Option String
  GetSystemAdminProfiles : List User × Option String
  SendIPFiltersChangedEmail : Nat → SendArgs → Option String
  SiteURL : String
  CWSURL : String

/-! ## Audit records -/

/-- Outcome state of an audit record. -/
inductive AuditStatus
  | Pending
  | Success
  | Fail
  deriving DecidableEq

/-- An audit record: event name, outcome, named parameters. -/
structure AuditRecord where
  EventName : String
  Status : AuditStatus
  Params : List (String × AllowedIPRanges)
  deriving DecidableEq

/-- What the goroutine started by `applyIPFilters` closes over: the context
(of which it reads the session's user id, the app and the logger) and the
local `cloudWorkspaceOwnerEmailAddress`. -/
structure Job where
  UserId : String
  cloudWorkspaceOwnerEmailAddress : String
  deriving DecidableEq

/-- One call made by a handler on a collaborator. -/
inductive Effect
  | permissionCheck (perm : Permission)
  | storeGet
  | storeApply (payload : AllowedIPRanges)
  | auditMake (event : String) (initial : AuditStatus)
  | auditLog (record : AuditRecord)
  | cloudLookup (userId : String)
  | logError (msg : String) (err : String)
  | go (job : Job)
  deriving DecidableEq

/-- The request context `*Context`. `jsonMarshalErr` is the error (if any)
that `json.Marshal` returns in `myIP`. -/
structure Context where
  App : App
  Session : Session
  IPAddress : String
  jsonMarshalErr : Option String
  Err : Option AppError
  effects : List Effect

/-- A JSON document written to the response. -/
inductive Body
  | ranges (r : AllowedIPRanges)
  | ip (addr : String)
  deriving DecidableEq

/-- The `http.ResponseWriter`: the error (if any) its `Write` returns, and
the documents written so far. -/
structure ResponseWriter where
  writeErr : Option String
  written : List Body

/-- The `*http.Request`: the outcome of JSON-decoding its body into
`model.AllowedIPRanges`. -/
structure Request where
  Body : Except String AllowedIPRanges

/-- The call `w.Write(b)`. -/
def ResponseWriter.Write (w : ResponseWriter) (b : Body) : ResponseWriter × Option String :=
  match w.writeErr with
  | none => ({ w with written := w.written ++ [b] }, none)
  | some e => (w, some e)

/-- Append one effect to the context. -/
def Context.emit (c : Context) (e : Effect) : Context :=
  { c with effects := c.effects ++ [e] }

/-- Modelled from the spec: `Context.SetPermissionError` is declared outside
ip_filtering.go. The call `c.SetPermissionError(perm)` stores the distinct,
explicit authorization error for `perm` in `c.Err`. -/
def SetPermissionError (c : Context) (perm : Permission) : Context :=
  { c with Err := some (AppError.permission perm) }

/-- Modelled from the spec: `Context.MakeAuditRecord` is declared outside
ip_filtering.go. The call `c.MakeAuditRecord(event, initialStatus)` creates a
record for the action with the given outcome and no parameters. -/
def MakeAuditRecord (c : Context) (event : String) (initial : AuditStatus) : Context × AuditRecord :=
  (c.emit (Effect.auditMake event initial), { EventName := event, Status := initial, Params := [] })

/-- Modelled from the spec: package `audit` is outside ip_filtering.go. The
call `audit.AddEventParameterAuditable(rec, key, val)` attaches a named
parameter to the record. -/
def AddEventParameterAuditable (rec : AuditRecord) (key : String) (val : AllowedIPRanges) : AuditRecord :=
  { rec with Params := rec.Params ++ [(key, val)] }

/-- Modelled from the spec: package `audit` is outside ip_filtering.go. The
call `auditRec.Success()` sets the outcome of the record to `Success`. -/
def AuditRecord.Success (rec : AuditRecord) : AuditRecord :=
  { rec with Status := AuditStatus.Success }

/-- Modelled from the spec: `Context.LogAuditRecWithLevel` is declared
outside ip_filtering.go. The call `c.LogAuditRecWithLevel(rec, level)` hands
the record, as it is at that moment, to the audit sink. -/
def LogAuditRecWithLevel (c : Context) (rec : AuditRecord) : Context :=
  c.emit (Effect.auditLog rec)

/-! ## The handlers -/

/-- The function `ensureIPFilteringInterface` (ip_filtering.go, 24-30). -/
def ensureIPFilteringInterface (c : Context) (where_ : String) :
    Context × Option IPFilteringInterface × Bool :=
  if c.App.IPFiltering.isNone || !c.App.CloudIPFiltering ||
      (match c.App.License with
       | none => true
       | some l => l.SkuShortName != LicenseShortSkuEnterprise) then
    ({ c with Err := some (NewAppError where_ "api.context.ip_filtering.not_available.app_error" ""
        StatusNotImplemented) }, none, false)
  else
    (c, c.App.IPFiltering, true)

/-- The handler `getIPFilters` (ip_filtering.go, 32-53). -/
def getIPFilters (c : Context) (w : ResponseWriter) (_r : Request) : Context × ResponseWriter :=
  match ensureIPFilteringInterface c "getIPFilters" with
  | (c, _, false) => (c, w)
  | (c, ipFiltering, true) =>
    let c := c.emit (Effect.permissionCheck Permission.PermissionSysconsoleReadIPFilters)
    if !c.App.SessionHasPermissionTo c.Session Permission.PermissionSysconsoleReadIPFilters then
      (SetPermissionError c Permission.PermissionSysconsoleReadIPFilters, w)
    else
      match ipFiltering with
      | none => (c, w) -- not reached: ok = true comes with a non-nil interface
      | some store =>
        let c := c.emit Effect.storeGet
        match store.GetIPFilters with
        | (_, some err) =>
          ({ c with Err := some (NewAppError "getIPFilters"
              "api.context.ip_filtering.get_ip_filters.app_error" err StatusInternalServerError) }, w)
        | (allowedRanges, none) =>
          match w.Write (Body.ranges allowedRanges) with
          | (w, some err) =>
            ({ c with Err := some (NewAppError "getIPFilters"
                "api.context.ip_filtering.get_ip_filters.app_error" err StatusInternalServerError) }, w)
          | (w, none) => (c, w)

/-- The part of `applyIPFilters` that runs after the audit record has been
made and its logging deferred (ip_filtering.go, 69-118). It returns the
audit record as the deferred call will see it. -/
def applyIPFiltersBody (c : Context) (w : ResponseWriter) (r : Request)
    (store : IPFilteringInterface) (auditRec : AuditRecord) :
    Context × ResponseWriter × AuditRecord :=
  match r.Body with
  | Except.error err =>
    ({ c with Err := some (NewAppError "applyIPFilters"
        "api.context.ip_filtering.apply_ip_filters.app_error" err StatusInternalServerError) },
      w, auditRec)
  | Except.ok allowedRanges =>
    let auditRec := AddEventParameterAuditable auditRec "IPFilter" allowedRanges
    let c := c.emit (Effect.storeApply allowedRanges)
    match store.ApplyIPFilters allowedRanges with
    | (_, some err) =>
      ({ c with Err := some (NewAppError "applyIPFilters"
          "api.context.ip_filtering.apply_ip_filters.app_error" err StatusInternalServerError) },
        w, auditRec)
    | (updatedAllowedRanges, none) =>
      let auditRec := auditRec.Success
      let (c, cloudWorkspaceOwnerEmailAddress) :=
        if License.IsCloud c.App.License then
          let c := c.emit (Effect.cloudLookup c.Session.UserId)
          match c.App.GetCloudCustomer c.Session.UserId with
          | (_, some cErr) => (c.emit (Effect.logError "Failed to get portal user customer" cErr), "")
          | (some portalUserCustomer, none) => (c, portalUserCustomer.Email)
          | (none, none) => (c, "")
        else (c, "")
      let c := c.emit (Effect.go { UserId := c.Session.UserId,
                                   cloudWorkspaceOwnerEmailAddress := cloudWorkspaceOwnerEmailAddress })
      match w.Write (Body.ranges updatedAllowedRanges) with
      | (w, some err) =>
        ({ c with Err := some (NewAppError "getIPFilters"
            "api.context.ip_filtering.get_ip_filters.app_error" err StatusInternalServerError) },
          w, auditRec)
      | (w, none) => (c, w, auditRec)

/-- The handler `applyIPFilters` (ip_filtering.go, 55-119). The deferred
`LogAuditRecWithLevel` runs when the body returns, on every path that comes
after the `defer` statement. -/
def applyIPFilters (c : Context) (w : ResponseWriter) (r : Request) : Context × ResponseWriter :=
  match ensureIPFilteringInterface c "applyIPFilters" with
  | (c, _, false) => (c, w)
  | (c, ipFiltering, true) =>
    let c := c.emit (Effect.permissionCheck Permission.PermissionSysconsoleWriteIPFilters)
    if !c.App.SessionHasPermissionTo c.Session Permission.PermissionSysconsoleWriteIPFilters then
      (SetPermissionError c Permission.PermissionSysconsoleWriteIPFilters, w)
    else
      match MakeAuditRecord c "applyIPFilters" AuditStatus.Fail with
      | (c, auditRec) =>
        match ipFiltering with
        | none => (LogAuditRecWithLevel c auditRec, w) -- not reached: ok = true comes with a non-nil interface
        | some store =>
          match applyIPFiltersBody c w r store auditRec with
          | (c, w, auditRec) => (LogAuditRecWithLevel c auditRec, w)

/-- The handler `myIP` (ip_filtering.go, 121-139). The error `w.Write`
returns is dropped, as in the source. -/
def myIP (c : Context) (w : ResponseWriter) (_r : Request) : Context × ResponseWriter :=
  match ensureIPFilteringInterface c "myIP" with
  | (c, _, false) => (c, w)
  | (c, _, true) =>
    match c.jsonMarshalErr with
    | some err =>
      ({ c with Err := some (NewAppError "myIP" "api.context.ip_filtering.get_my_ip.failed" err
          StatusInternalServerError) }, w)
    | none => (c, (w.Write (Body.ip c.IPAddress)).1)

/-! ## The notification goroutine -/

/-- What one run of the goroutine did: the errors it logged, the sends it
attempted (in order), and whether it stopped in a runtime panic. -/
structure JobRun where
  logs : List (String × String)
  sends : List SendArgs
  panicked : Bool
  deriving DecidableEq

/-- The arguments of the `SendIPFiltersChangedEmail` call made for `user`
(ip_filtering.go, 109), `first` being `initiatingUser[0]`. -/
def sendArgs (app : App) (job : Job) (first : User) (user : User) : SendArgs :=
  { email := user.Email, initiatingUser := first, siteURL := app.SiteURL,
    cwsURL := app.CWSURL, locale := user.Locale,
    isWorkspaceOwner := job.cloudWorkspaceOwnerEmailAddress == user.Email }

/-- The loop `for _, user := range users` of the goroutine
(ip_filtering.go, 108-112). Evaluating the argument `initiatingUser[0]` on an
empty slice is an index-out-of-range panic, which ends the run. -/
def sendLoop (app : App) (job : Job) (initiatingUser : List User) : List User → JobRun → JobRun
  | [], run => run
  | user :: rest, run =>
    match initiatingUser with
    | [] => { run with panicked := true }
    | first :: _ =>
      let args := sendArgs app job first user
      let err := app.SendIPFiltersChangedEmail run.sends.length args
      let run := { run with sends := run.sends ++ [args] }
      let run := match err with
        | some e => { run with logs := run.logs ++ [("Error while sending IP filters changed email", e)] }
        | none => run
      sendLoop app job initiatingUser rest run

/-- The body of the goroutine started by `applyIPFilters`
(ip_filtering.go, 97-113). -/
def notificationJob (app : App) (job : Job) : JobRun :=
  let run : JobRun := { logs := [], sends := [], panicked := false }
  match app.GetProfileByIds [job.UserId] with
  | (initiatingUser, err) =>
    let run := match err with
      | some e => { run with logs := run.logs ++ [("Failed to get initiating user", e)] }
      | none => run
    match app.GetSystemAdminProfiles with
    | (users, err) =>
      let run := match err with
        | some e => { run with logs := run.logs ++ [("Failed to get system admins", e)] }
        | none => run
      sendLoop app job initiatingUser users run

/-! ## Reading the effects -/

/-- The audit records made, as (event, initial status), in order. -/
def auditsMade (es : List Effect) : List (String × AuditStatus) :=
  es.filterMap fun e => match e with
    | Effect.auditMake ev st => some (ev, st)
    | _ => none

/-- The audit records logged, in order. -/
def auditsLogged (es : List Effect) : List AuditRecord :=
  es.filterMap fun e => match e with
    | Effect.auditLog rec => some rec
    | _ => none

/-- The payloads of the `ApplyIPFilters` calls, in order. -/
def storeApplies (es : List Effect) : List AllowedIPRanges :=
  es.filterMap fun e => match e with
    | Effect.storeApply p => some p
    | _ => none

/-- The `GetIPFilters` calls, in order. -/
def storeGets (es : List Effect) : List Unit :=
  es.filterMap fun e => match e with
    | Effect.storeGet => some ()
    | _ => none

/-- The goroutines started, in order. -/
def jobsStarted (es : List Effect) : List Job :=
  es.filterMap fun e => match e with
    | Effect.go job => some job
    | _ => none

/-- The permissions checked, in order. -/
def permissionChecks (es : List Effect) : List Permission :=
  es.filterMap fun e => match e with
    | Effect.permissionCheck p => some p
    | _ => none

/-- The entitlement gate passes: the interface is there, the flag is on, a
license is present and its SKU is the enterprise SKU. -/
def gateOpen (c : Context) : Prop :=
  c.App.IPFiltering.isSome = true ∧ c.App.CloudIPFiltering = true ∧
    ∃ l, c.App.License = some l ∧ l.SkuShortName = LicenseShortSkuEnterprise

/-- The message id of the gate error. -/
def notAvailableId : String := "api.context.ip_filtering.not_available.app_error"

/-- Outcome of a handler named `name` that the entitlement gate refused,
started on context `c` and writer `w`: the stored error is the gate error for
that handler, its status is 501 and not 403, no effect was added (no
permission check, no store call, no audit record made or logged, no goroutine,
no log line) and the response writer is untouched. -/
def refusedOutcome (name : String) (c : Context) (w : ResponseWriter)
    (out : Context × ResponseWriter) : Prop :=
  out.1.Err = some (AppError.app name notAvailableId "" 501) ∧
  out.1.Err.map AppError.StatusCode = some StatusNotImplemented ∧
  out.1.Err.map AppError.StatusCode ≠ some StatusForbidden ∧
  out.1.effects = c.effects ∧
  permissionChecks out.1.effects = permissionChecks c.effects ∧
  storeGets out.1.effects = storeGets c.effects ∧
  storeApplies out.1.effects = storeApplies c.effects ∧
  auditsMade out.1.effects = auditsMade c.effects ∧
  auditsLogged out.1.effects = auditsLogged c.effects ∧
  jobsStarted out.1.effects = jobsStarted c.effects ∧
  out.2 = w

/-- Outcome of a handler that asks for permission `perm`, started on context
`c` and writer `w` by a principal without that permission: an error is stored
whose status is 501 or 403, nothing is written, no store call is made, no
audit record is made or logged, no goroutine is started; and when the gate
is open the error is the permission error (403) and the only effect is the
permission check itself. -/
def deniedOutcome (perm : Permission) (c : Context) (w : ResponseWriter)
    (out : Context × ResponseWriter) : Prop :=
  (∃ e, out.1.Err = some e ∧
    (e.StatusCode = StatusNotImplemented ∨ e.StatusCode = StatusForbidden)) ∧
  out.2 = w ∧
  storeGets out.1.effects = storeGets c.effects ∧
  storeApplies out.1.effects = storeApplies c.effects ∧
  auditsMade out.1.effects = auditsMade c.effects ∧
  auditsLogged out.1.effects = auditsLogged c.effects ∧
  jobsStarted out.1.effects = jobsStarted c.effects ∧
  (gateOpen c →
    out.1.Err = some (AppError.permission perm) ∧
    out.1.Err.map AppError.StatusCode = some StatusForbidden ∧
    out.1.effects = c.effects ++ [Effect.permissionCheck perm])

/-- The value of the local `cloudWorkspaceOwnerEmailAddress` when the
goroutine is started (ip_filtering.go, 86-95), as a function of the context
alone. -/
def ownerEmail (c : Context) : String :=
  if License.IsCloud c.App.License then
    match c.App.GetCloudCustomer c.Session.UserId with
    | (_, some _) => ""
    | (some portalUserCustomer, none) => portalUserCustomer.Email
    | (none, none) => ""
  else ""

/-- The request body failed to decode. -/
def decodeFailed (r : Request) : Prop :=
  ∃ e, r.Body = Except.error e

/-- The body decoded and the store's `ApplyIPFilters` returned an error on
the decoded payload. -/
def storeFailed (c : Context) (r : Request) : Prop :=
  ∃ payload store e, r.Body = Except.ok payload ∧ c.App.IPFiltering = some store ∧
    (store.ApplyIPFilters payload).2 = some e

/-- The principal of the request holds the write permission. -/
def mayWrite (c : Context) : Prop :=
  c.App.SessionHasPermissionTo c.Session Permission.PermissionSysconsoleWriteIPFilters = true

/-- The log lines of the loop: one for each send that returned an error,
in order, the first send being number `k`. -/
def sendErrors (app : App) (job : Job) (first : User) : Nat → List User → List (String × String)
  | _, [] => []
  | k, user :: rest =>
    (match app.SendIPFiltersChangedEmail k (sendArgs app job first user) with
      | some e => [("Error while sending IP filters changed email", e)]
      | none => []) ++ sendErrors app job first (k + 1) rest

/-- The log lines of the two lookups that precede the loop. -/
def lookupErrors (app : App) (job : Job) : List (String × String) :=
  (match (app.GetProfileByIds [job.UserId]).2 with
    | some e => [("Failed to get initiating user", e)]
    | none => []) ++
  (match app.GetSystemAdminProfiles.2 with
    | some e => [("Failed to get system admins", e)]
    | none => [])

/-! ## Concrete contexts -/

/-- A store that answers with one range and, on a write, returns the payload
with the loopback range added in front. -/
def sampleStore : IPFilteringInterface :=
  { GetIPFilters := (["10.0.0.0/8"], none)
    ApplyIPFilters := fun p => ("127.0.0.1/32" :: p, none) }

/-- The profile of the acting user. -/
def sampleActor : User := { Id := "u1", Email := "actor@example.com", Locale := "en" }

/-- Two administrators. -/
def sampleAdmins : List User :=
  [ { Id := "a1", Email := "root@example.com", Locale := "en" },
    { Id := "a2", Email := "ops@example.com", Locale := "de" } ]

/-- An app on which the gate passes and every permission is granted; the
first send of a notification fails, the later ones succeed. -/
def sampleApp : App :=
  { IPFiltering := some sampleStore
    CloudIPFiltering := true
    License := some { SkuShortName := LicenseShortSkuEnterprise, Cloud := false }
    SessionHasPermissionTo := fun _ _ => true
    GetCloudCustomer := fun _ => (none, none)
    GetProfileByIds := fun _ => ([sampleActor], none)
    GetSystemAdminProfiles := (sampleAdmins, none)
    SendIPFiltersChangedEmail := fun k _ => if k = 0 then some "smtp: connection refused" else none
    SiteURL := "https://chat.example.com"
    CWSURL := "https://portal.example.com" }

/-- A fresh context over an app. -/
def freshContext (app : App) : Context :=
  { App := app, Session := { UserId := "u1" }, IPAddress := "192.0.2.7",
    jsonMarshalErr := none, Err := none, effects := [] }

/-- A response writer that accepts every write. -/
def goodWriter : ResponseWriter := { writeErr := none, written := [] }

/-- A response writer whose `Write` fails. -/
def brokenWriter : ResponseWriter := { writeErr := some "write: broken pipe", written := [] }

/-- A request whose body decodes to one range. -/
def goodRequest : Request := { Body := Except.ok ["198.51.100.0/24"] }

/-- An app on which the gate passes and no permission is granted. -/
def noPermissionApp : App := { sampleApp with SessionHasPermissionTo := fun _ _ => false }

/-- A request whose body decodes to the empty list of ranges. -/
def emptyRequest : Request := { Body := Except.ok [] }

/-- A store that answers every write with one fixed range. -/
def otherStore : IPFilteringInterface :=
  { GetIPFilters := ([], none)
    ApplyIPFilters := fun _ => (["203.0.113.0/24"], none) }

/-- An app whose user store fails to resolve the acting user (the lookup
returns a nil slice and an error) while two administrators exist. -/
def lookupFailsApp : App :=
  { sampleApp with GetProfileByIds := fun _ => ([], some "sql: connection is closed") }

/-- The goroutine's closure for the fresh context. -/
def sampleJob : Job := { UserId := "u1", cloudWorkspaceOwnerEmailAddress := "" }

/-- A request whose body does not decode. -/
def badRequest : Request := { Body := Except.error "unexpected end of JSON input" }

/-! ## The admission gate -/

/-- When the flag is off, the license is absent or its SKU is not the
enterprise SKU, the gate stores the 501 error and returns `(nil, false)`. -/
theorem ensure_of_refused (c : Context) (where_ : String)
    (h : c.App.CloudIPFiltering = false ∨ c.App.License = none ∨
      ∃ l, c.App.License = some l ∧ l.SkuShortName ≠ LicenseShortSkuEnterprise) :
    ensureIPFilteringInterface c where_ =
      ({ c with Err := some (NewAppError where_ "api.context.ip_filtering.not_available.app_error" ""
          StatusNotImplemented) }, none, false) := by
  unfold ensureIPFilteringInterface
  rcases h with h | h | ⟨l, h, hl⟩
  · simp [h]
  · simp [h]
  · simp [h, hl]

/-- When the gate passes it leaves the context alone and returns the
interface with `ok = true`. -/
theorem ensure_of_open (c : Context) (where_ : String) (h : gateOpen c) :
    ensureIPFilteringInterface c where_ = (c, c.App.IPFiltering, true) := by
  obtain ⟨h1, h2, l, h3, h4⟩ := h
  unfold ensureIPFilteringInterface
  cases hi : c.App.IPFiltering with
  | none => simp [hi] at h1
  | some s => simp [h2, h3, h4]

/-- Whenever the gate is not open (this includes a nil interface) the gate
stores the 501 error and returns `(nil, false)`. -/
theorem ensure_of_closed (c : Context) (where_ : String) (h : ¬ gateOpen c) :
    ensureIPFilteringInterface c where_ =
      ({ c with Err := some (NewAppError where_ "api.context.ip_filtering.not_available.app_error" ""
          StatusNotImplemented) }, none, false) := by
  unfold ensureIPFilteringInterface
  cases hi : c.App.IPFiltering with
  | none => simp
  | some s =>
    cases hf : c.App.CloudIPFiltering with
    | false => simp
    | true =>
      cases hl : c.App.License with
      | none => simp
      | some l =>
        by_cases hs : l.SkuShortName = LicenseShortSkuEnterprise
        · exact absurd ⟨by simp [hi], hf, l, hl, hs⟩ h
        · simp [hs]

/-- C1 (as stated, refuted): with a license present, the enterprise SKU and
the flag on, but no IP filtering interface installed, the gate still returns
`ok = false`. -/
theorem ensure_three_conditions_not_sufficient :
    (freshContext { sampleApp with IPFiltering := none }).App.CloudIPFiltering = true ∧
    (∃ l, (freshContext { sampleApp with IPFiltering := none }).App.License = some l ∧
      l.SkuShortName = LicenseShortSkuEnterprise) ∧
    (ensureIPFilteringInterface (freshContext { sampleApp with IPFiltering := none }) "api").2.2
      = false := by
  refine ⟨rfl, ⟨_, rfl, rfl⟩, ?_⟩
  simp [ensureIPFilteringInterface, freshContext, sampleApp]

/-- C1 (amended): `ensureIPFilteringInterface` returns `ok = true` if and only
if the IP filtering interface is non-nil, the CloudIPFiltering flag is on, a
license is present and its SKU is the enterprise SKU; in every other case it
returns `ok = false`. -/
theorem ensure_ok_iff (c : Context) (where_ : String) :
    ((ensureIPFilteringInterface c where_).2.2 = true ↔
      (c.App.IPFiltering.isSome = true ∧ c.App.CloudIPFiltering = true ∧
        ∃ l, c.App.License = some l ∧ l.SkuShortName = LicenseShortSkuEnterprise)) ∧
    ((ensureIPFilteringInterface c where_).2.2 = false ↔
      ¬ (c.App.IPFiltering.isSome = true ∧ c.App.CloudIPFiltering = true ∧
        ∃ l, c.App.License = some l ∧ l.SkuShortName = LicenseShortSkuEnterprise)) := by
  have key : (ensureIPFilteringInterface c where_).2.2 = true ↔
      (c.App.IPFiltering.isSome = true ∧ c.App.CloudIPFiltering = true ∧
        ∃ l, c.App.License = some l ∧ l.SkuShortName = LicenseShortSkuEnterprise) := by
    constructor
    · intro h
      by_contra hne
      rw [ensure_of_closed c where_ hne] at h
      simp at h
    · intro h
      rw [ensure_of_open c where_ h]
  refine ⟨key, ?_⟩
  rw [← key]
  cases (ensureIPFilteringInterface c where_).2.2 <;> simp

/-- C2: for every caller name and every two contexts on which the gate
refuses, one because the flag is off and the other because the license is
absent or has another SKU, the stored error is the same in both runs (id
`api.context.ip_filtering.not_available.app_error`, status 501, empty
detail), the returned interface is nil and `ok` is false in both. -/
theorem ensure_refusals_indistinguishable (where_ : String) (c1 c2 : Context)
    (h1 : c1.App.CloudIPFiltering = false)
    (h2 : c2.App.License = none ∨
      ∃ l, c2.App.License = some l ∧ l.SkuShortName ≠ LicenseShortSkuEnterprise) :
    (ensureIPFilteringInterface c1 where_).1.Err = (ensureIPFilteringInterface c2 where_).1.Err ∧
    (ensureIPFilteringInterface c1 where_).1.Err =
      some (AppError.app where_ "api.context.ip_filtering.not_available.app_error" "" 501) ∧
    ((ensureIPFilteringInterface c1 where_).1.Err.map AppError.StatusCode = some 501) ∧
    (ensureIPFilteringInterface c1 where_).2.1 = none ∧
    (ensureIPFilteringInterface c2 where_).2.1 = none ∧
    (ensureIPFilteringInterface c1 where_).2.2 = false ∧
    (ensureIPFilteringInterface c2 where_).2.2 = false := by
  rw [ensure_of_refused c1 where_ (Or.inl h1), ensure_of_refused c2 where_ (Or.inr h2)]
  simp [NewAppError, StatusNotImplemented, AppError.StatusCode]

/-- Witness for C2: a context with the flag off and a context without a
license, both asked by `applyIPFilters`. -/
theorem ensure_refusals_indistinguishable_witness :
    (freshContext { sampleApp with CloudIPFiltering := false }).App.CloudIPFiltering = false ∧
    (freshContext { sampleApp with License := none }).App.License = none ∧
    (ensureIPFilteringInterface (freshContext { sampleApp with CloudIPFiltering := false })
        "applyIPFilters").1.Err =
      (ensureIPFilteringInterface (freshContext { sampleApp with License := none })
        "applyIPFilters").1.Err :=
  ⟨rfl, rfl,
    (ensure_refusals_indistinguishable "applyIPFilters"
      (freshContext { sampleApp with CloudIPFiltering := false })
      (freshContext { sampleApp with License := none }) rfl (Or.inl rfl)).1⟩

/-! ## Refused and denied requests -/

/-- The outcome `refusedOutcome` holds of the context with the gate error
stored and the writer unchanged. -/
theorem refusedOutcome_intro (name : String) (c : Context) (w : ResponseWriter) :
    refusedOutcome name c w
      ({ c with Err := some (NewAppError name "api.context.ip_filtering.not_available.app_error" ""
          StatusNotImplemented) }, w) := by
  simp [refusedOutcome, NewAppError, notAvailableId, StatusNotImplemented, StatusForbidden,
    AppError.StatusCode]

/-- C3: on every request that the entitlement gate refuses (flag off, no
license, or a license of another SKU), whatever the principal may do, each of
`getIPFilters`, `applyIPFilters` and `myIP` ends with the 501 gate error
(never 403), having made no permission check, no store call, no audit record,
no goroutine, and having written nothing. -/
theorem refused_handlers_do_nothing (c : Context) (w : ResponseWriter) (r : Request)
    (h : c.App.CloudIPFiltering = false ∨ c.App.License = none ∨
      ∃ l, c.App.License = some l ∧ l.SkuShortName ≠ LicenseShortSkuEnterprise) :
    refusedOutcome "getIPFilters" c w (getIPFilters c w r) ∧
    refusedOutcome "applyIPFilters" c w (applyIPFilters c w r) ∧
    refusedOutcome "myIP" c w (myIP c w r) := by
  refine ⟨?_, ?_, ?_⟩
  · have e : getIPFilters c w r = ({ c with Err := some (NewAppError "getIPFilters"
        "api.context.ip_filtering.not_available.app_error" "" StatusNotImplemented) }, w) := by
      unfold getIPFilters; rw [ensure_of_refused c "getIPFilters" h]
    rw [e]; exact refusedOutcome_intro _ c w
  · have e : applyIPFilters c w r = ({ c with Err := some (NewAppError "applyIPFilters"
        "api.context.ip_filtering.not_available.app_error" "" StatusNotImplemented) }, w) := by
      unfold applyIPFilters; rw [ensure_of_refused c "applyIPFilters" h]
    rw [e]; exact refusedOutcome_intro _ c w
  · have e : myIP c w r = ({ c with Err := some (NewAppError "myIP"
        "api.context.ip_filtering.not_available.app_error" "" StatusNotImplemented) }, w) := by
      unfold myIP; rw [ensure_of_refused c "myIP" h]
    rw [e]; exact refusedOutcome_intro _ c w

/-- Witness for C3: a principal holding every permission, on a server without
a license. -/
theorem refused_handlers_do_nothing_witness :
    (freshContext { sampleApp with License := none }).App.License = none ∧
    refusedOutcome "applyIPFilters" (freshContext { sampleApp with License := none }) goodWriter
      (applyIPFilters (freshContext { sampleApp with License := none }) goodWriter goodRequest) :=
  ⟨rfl, (refused_handlers_do_nothing (freshContext { sampleApp with License := none }) goodWriter
    goodRequest (Or.inr (Or.inl rfl))).2.1⟩

/-- With the gate open and the read permission missing, `getIPFilters`
checks the permission, stores the permission error and returns. -/
theorem getIPFilters_of_denied (c : Context) (w : ResponseWriter) (r : Request)
    (hg : gateOpen c)
    (hp : c.App.SessionHasPermissionTo c.Session Permission.PermissionSysconsoleReadIPFilters = false) :
    getIPFilters c w r =
      (SetPermissionError (c.emit (Effect.permissionCheck Permission.PermissionSysconsoleReadIPFilters))
        Permission.PermissionSysconsoleReadIPFilters, w) := by
  unfold getIPFilters
  rw [ensure_of_open c "getIPFilters" hg]
  simp [Context.emit, hp]

/-- With the gate open and the write permission missing, `applyIPFilters`
checks the permission, stores the permission error and returns. -/
theorem applyIPFilters_of_denied (c : Context) (w : ResponseWriter) (r : Request)
    (hg : gateOpen c)
    (hp : c.App.SessionHasPermissionTo c.Session Permission.PermissionSysconsoleWriteIPFilters = false) :
    applyIPFilters c w r =
      (SetPermissionError (c.emit (Effect.permissionCheck Permission.PermissionSysconsoleWriteIPFilters))
        Permission.PermissionSysconsoleWriteIPFilters, w) := by
  unfold applyIPFilters
  rw [ensure_of_open c "applyIPFilters" hg]
  simp [Context.emit, hp]

/-- The outcome `deniedOutcome` holds of the gate refusal. -/
theorem deniedOutcome_of_closed (perm : Permission) (name : String) (c : Context)
    (w : ResponseWriter) (hg : ¬ gateOpen c) :
    deniedOutcome perm c w
      ({ c with Err := some (NewAppError name "api.context.ip_filtering.not_available.app_error" ""
          StatusNotImplemented) }, w) := by
  refine ⟨⟨_, rfl, Or.inl rfl⟩, rfl, rfl, rfl, rfl, rfl, rfl, fun h => absurd h hg⟩

/-- The outcome `deniedOutcome` holds of the permission refusal. -/
theorem deniedOutcome_of_open (perm : Permission) (c : Context) (w : ResponseWriter) :
    deniedOutcome perm c w (SetPermissionError (c.emit (Effect.permissionCheck perm)) perm, w) := by
  refine ⟨⟨_, rfl, Or.inr rfl⟩, rfl, ?_, ?_, ?_, ?_, ?_, fun _ => ⟨rfl, rfl, rfl⟩⟩ <;>
    simp [SetPermissionError, Context.emit, storeGets, storeApplies, auditsMade, auditsLogged,
      jobsStarted, List.filterMap_append]

/-- C4 (as stated, refuted): on a server where the gate passes, a principal
holding no permission at all calls `myIP` and gets the address written to the
response, with no error stored. -/
theorem myIP_admits_without_permission :
    (∀ perm, (freshContext noPermissionApp).App.SessionHasPermissionTo
      (freshContext noPermissionApp).Session perm = false) ∧
    gateOpen (freshContext noPermissionApp) ∧
    (myIP (freshContext noPermissionApp) goodWriter goodRequest).1.Err = none ∧
    (myIP (freshContext noPermissionApp) goodWriter goodRequest).2.written = [Body.ip "192.0.2.7"] := by
  refine ⟨fun _ => rfl, ⟨rfl, rfl, _, rfl, rfl⟩, ?_, ?_⟩ <;>
    simp [myIP, ensureIPFilteringInterface, freshContext, noPermissionApp, sampleApp, goodWriter,
      ResponseWriter.Write]

/-- C4 (amended): for every principal lacking the permission a handler asks
for, and for every license and flag state, neither `getIPFilters` (read
permission) nor `applyIPFilters` (write permission) is admitted: an error of
status 501 or 403 is stored, and when the entitlement gate passes it is the
403 permission error; nothing is written to the response, no store call is
made and no audit record is made or logged. `myIP` asks for no permission:
when the gate passes it stores no error and writes the caller's address,
whatever permissions the principal holds. -/
theorem permission_denied_not_admitted (c : Context) (w : ResponseWriter) (r : Request) :
    (c.App.SessionHasPermissionTo c.Session Permission.PermissionSysconsoleReadIPFilters = false →
      deniedOutcome Permission.PermissionSysconsoleReadIPFilters c w (getIPFilters c w r)) ∧
    (c.App.SessionHasPermissionTo c.Session Permission.PermissionSysconsoleWriteIPFilters = false →
      deniedOutcome Permission.PermissionSysconsoleWriteIPFilters c w (applyIPFilters c w r)) ∧
    (gateOpen c → c.jsonMarshalErr = none →
      (myIP c w r).1 = c ∧ (myIP c w r).2 = (w.Write (Body.ip c.IPAddress)).1 ∧
      (w.writeErr = none → (myIP c w r).2.written = w.written ++ [Body.ip c.IPAddress])) := by
  refine ⟨fun hp => ?_, fun hp => ?_, fun hg hm => ?_⟩
  · by_cases hg : gateOpen c
    · rw [getIPFilters_of_denied c w r hg hp]
      exact deniedOutcome_of_open _ c w
    · have e : getIPFilters c w r = ({ c with Err := some (NewAppError "getIPFilters"
          "api.context.ip_filtering.not_available.app_error" "" StatusNotImplemented) }, w) := by
        unfold getIPFilters; rw [ensure_of_closed c "getIPFilters" hg]
      rw [e]; exact deniedOutcome_of_closed _ _ c w hg
  · by_cases hg : gateOpen c
    · rw [applyIPFilters_of_denied c w r hg hp]
      exact deniedOutcome_of_open _ c w
    · have e : applyIPFilters c w r = ({ c with Err := some (NewAppError "applyIPFilters"
          "api.context.ip_filtering.not_available.app_error" "" StatusNotImplemented) }, w) := by
        unfold applyIPFilters; rw [ensure_of_closed c "applyIPFilters" hg]
      rw [e]; exact deniedOutcome_of_closed _ _ c w hg
  · have e : myIP c w r = (c, (w.Write (Body.ip c.IPAddress)).1) := by
      unfold myIP; rw [ensure_of_open c "myIP" hg]; simp [hm]
    rw [e]
    refine ⟨rfl, rfl, fun hw => ?_⟩
    simp [ResponseWriter.Write, hw]

/-- Witness for C4: a principal without permissions on a server where the
gate passes. -/
theorem permission_denied_not_admitted_witness :
    (freshContext noPermissionApp).App.SessionHasPermissionTo (freshContext noPermissionApp).Session
      Permission.PermissionSysconsoleWriteIPFilters = false ∧
    deniedOutcome Permission.PermissionSysconsoleWriteIPFilters (freshContext noPermissionApp)
      goodWriter (applyIPFilters (freshContext noPermissionApp) goodWriter goodRequest) :=
  ⟨rfl, (permission_denied_not_admitted (freshContext noPermissionApp) goodWriter goodRequest).2.1 rfl⟩

/-! ## Admitted writes -/

/-- An admitted `applyIPFilters` checks the permission, makes the audit
record with outcome `Fail`, runs the body, and logs the record the body
leaves. -/
theorem applyIPFilters_of_admitted (c : Context) (w : ResponseWriter) (r : Request)
    (store : IPFilteringInterface) (hg : gateOpen c) (hp : mayWrite c)
    (hs : c.App.IPFiltering = some store) :
    applyIPFilters c w r =
      (LogAuditRecWithLevel
        (applyIPFiltersBody
          ((c.emit (Effect.permissionCheck Permission.PermissionSysconsoleWriteIPFilters)).emit
            (Effect.auditMake "applyIPFilters" AuditStatus.Fail))
          w r store { EventName := "applyIPFilters", Status := AuditStatus.Fail, Params := [] }).1
        (applyIPFiltersBody
          ((c.emit (Effect.permissionCheck Permission.PermissionSysconsoleWriteIPFilters)).emit
            (Effect.auditMake "applyIPFilters" AuditStatus.Fail))
          w r store { EventName := "applyIPFilters", Status := AuditStatus.Fail, Params := [] }).2.2,
       (applyIPFiltersBody
          ((c.emit (Effect.permissionCheck Permission.PermissionSysconsoleWriteIPFilters)).emit
            (Effect.auditMake "applyIPFilters" AuditStatus.Fail))
          w r store { EventName := "applyIPFilters", Status := AuditStatus.Fail, Params := [] }).2.1) := by
  unfold applyIPFilters
  rw [ensure_of_open c "applyIPFilters" hg]
  unfold mayWrite at hp
  simp [Context.emit, hp, hs, MakeAuditRecord]

/-- The body on a request that does not decode: the 500 error is stored and
nothing else happens. -/
theorem applyIPFiltersBody_of_decode_error (c : Context) (w : ResponseWriter) (r : Request)
    (store : IPFilteringInterface) (rec : AuditRecord) (e : String)
    (hb : r.Body = Except.error e) :
    applyIPFiltersBody c w r store rec =
      ({ c with Err := some (NewAppError "applyIPFilters"
          "api.context.ip_filtering.apply_ip_filters.app_error" e StatusInternalServerError) },
        w, rec) := by
  unfold applyIPFiltersBody
  simp [hb]

/-- The body on a request that decodes and on which the store fails: the
store was called once, the 500 error is stored, the record has the payload as
parameter and keeps its outcome. -/
theorem applyIPFiltersBody_of_store_error (c : Context) (w : ResponseWriter) (r : Request)
    (store : IPFilteringInterface) (rec : AuditRecord) (payload : AllowedIPRanges) (e : String)
    (hb : r.Body = Except.ok payload) (hs : (store.ApplyIPFilters payload).2 = some e) :
    applyIPFiltersBody c w r store rec =
      ({ c.emit (Effect.storeApply payload) with Err := some (NewAppError "applyIPFilters"
          "api.context.ip_filtering.apply_ip_filters.app_error" e StatusInternalServerError) },
        w, AddEventParameterAuditable rec "IPFilter" payload) := by
  unfold applyIPFiltersBody
  rcases hr : store.ApplyIPFilters payload with ⟨u, err⟩
  rw [hr] at hs
  simp only at hs
  subst hs
  simp [hb, hr]

/-- The body on a request that decodes and on which the store succeeds. The
store was called once with the payload; the record is marked `Success`; one
goroutine is started, for the session's user and the owner address; the
returned value is written, and an error is stored only when that write
fails. -/
theorem applyIPFiltersBody_of_success (c : Context) (w : ResponseWriter) (r : Request)
    (store : IPFilteringInterface) (rec : AuditRecord) (payload updated : AllowedIPRanges)
    (hb : r.Body = Except.ok payload) (hs : store.ApplyIPFilters payload = (updated, none)) :
    (applyIPFiltersBody c w r store rec).2.2 =
      (AddEventParameterAuditable rec "IPFilter" payload).Success ∧
    storeApplies (applyIPFiltersBody c w r store rec).1.effects =
      storeApplies c.effects ++ [payload] ∧
    jobsStarted (applyIPFiltersBody c w r store rec).1.effects =
      jobsStarted c.effects ++ [{ UserId := c.Session.UserId,
                                  cloudWorkspaceOwnerEmailAddress := ownerEmail c }] ∧
    auditsLogged (applyIPFiltersBody c w r store rec).1.effects = auditsLogged c.effects ∧
    auditsMade (applyIPFiltersBody c w r store rec).1.effects = auditsMade c.effects ∧
    (w.writeErr = none →
      (applyIPFiltersBody c w r store rec).2.1.written = w.written ++ [Body.ranges updated] ∧
      (applyIPFiltersBody c w r store rec).1.Err = c.Err) ∧
    (∀ e, w.writeErr = some e →
      (applyIPFiltersBody c w r store rec).2.1 = w ∧
      (applyIPFiltersBody c w r store rec).1.Err = some (NewAppError "getIPFilters"
        "api.context.ip_filtering.get_ip_filters.app_error" e StatusInternalServerError)) := by
  unfold applyIPFiltersBody
  simp only [hb, hs]
  cases hw : w.writeErr <;> cases hc : License.IsCloud c.App.License <;>
    rcases hcc : c.App.GetCloudCustomer c.Session.UserId with ⟨_ | cust, _ | e⟩ <;>
    simp [hw, hc, hcc, ResponseWriter.Write, Context.emit, ownerEmail, storeApplies, jobsStarted,
      auditsLogged, auditsMade, List.filterMap_append]

/-- C5: on every `applyIPFilters` request that passes the entitlement gate
and the permission check, exactly one audit record is made and exactly one
is logged by the time the handler returns, on every exit path; the logged
record has outcome `Fail` if and only if the body failed to decode or
`ApplyIPFilters` returned an error, and outcome `Success` otherwise. -/
theorem applyIPFilters_logs_one_audit_record (c : Context) (w : ResponseWriter) (r : Request)
    (hg : gateOpen c) (hp : mayWrite c) :
    ∃ rec,
      auditsLogged (applyIPFilters c w r).1.effects = auditsLogged c.effects ++ [rec] ∧
      auditsMade (applyIPFilters c w r).1.effects =
        auditsMade c.effects ++ [("applyIPFilters", AuditStatus.Fail)] ∧
      rec.EventName = "applyIPFilters" ∧
      (rec.Status = AuditStatus.Fail ↔ (decodeFailed r ∨ storeFailed c r)) ∧
      (¬ (decodeFailed r ∨ storeFailed c r) → rec.Status = AuditStatus.Success) := by
  obtain ⟨store, hs⟩ : ∃ store, c.App.IPFiltering = some store := by
    cases hi : c.App.IPFiltering with
    | none => have := hg.1; simp [hi] at this
    | some st => exact ⟨st, rfl⟩
  rw [applyIPFilters_of_admitted c w r store hg hp hs]
  cases hb : r.Body with
  | error e =>
    rw [applyIPFiltersBody_of_decode_error _ w r store _ e hb]
    refine ⟨{ EventName := "applyIPFilters", Status := AuditStatus.Fail, Params := [] },
      ?_, ?_, rfl, ?_, ?_⟩
    · simp [LogAuditRecWithLevel, Context.emit, auditsLogged, List.filterMap_append]
    · simp [LogAuditRecWithLevel, Context.emit, auditsMade, List.filterMap_append]
    · simp only [true_iff]
      exact Or.inl ⟨e, hb⟩
    · intro hn
      exact absurd (Or.inl ⟨e, hb⟩) hn
  | ok payload =>
    rcases hst : store.ApplyIPFilters payload with ⟨updated, _ | e⟩
    · obtain ⟨h1, -, -, h4, h5, -, -⟩ :=
        applyIPFiltersBody_of_success
          ((c.emit (Effect.permissionCheck Permission.PermissionSysconsoleWriteIPFilters)).emit
            (Effect.auditMake "applyIPFilters" AuditStatus.Fail))
          w r store { EventName := "applyIPFilters", Status := AuditStatus.Fail, Params := [] }
          payload updated hb hst
      rw [h1]
      refine ⟨(AddEventParameterAuditable
        { EventName := "applyIPFilters", Status := AuditStatus.Fail, Params := [] } "IPFilter"
        payload).Success, ?_, ?_, rfl, ?_, ?_⟩
      · simp only [LogAuditRecWithLevel, Context.emit] at h4 ⊢
        simp only [auditsLogged, List.filterMap_append] at h4 ⊢
        rw [h4]
        simp
      · simp only [LogAuditRecWithLevel, Context.emit] at h5 ⊢
        simp only [auditsMade, List.filterMap_append] at h5 ⊢
        rw [h5]
        simp
      · simp only [AuditRecord.Success, AddEventParameterAuditable, false_iff, reduceCtorEq]
        rintro (⟨e, he⟩ | ⟨p2, st2, e, hp2, hst2, he⟩)
        · rw [hb] at he
          cases he
        · rw [hs] at hst2
          rw [hb] at hp2
          injection hst2 with hst2
          injection hp2 with hp2
          subst hst2 hp2
          rw [hst] at he
          cases he
      · intro _
        rfl
    · have hst2 : (store.ApplyIPFilters payload).2 = some e := by rw [hst]
      rw [applyIPFiltersBody_of_store_error _ w r store _ payload e hb hst2]
      refine ⟨AddEventParameterAuditable
        { EventName := "applyIPFilters", Status := AuditStatus.Fail, Params := [] } "IPFilter"
        payload, ?_, ?_, rfl, ?_, ?_⟩
      · simp [LogAuditRecWithLevel, Context.emit, auditsLogged, List.filterMap_append]
      · simp [LogAuditRecWithLevel, Context.emit, auditsMade, List.filterMap_append]
      · simp only [AddEventParameterAuditable, true_iff]
        exact Or.inr ⟨payload, store, e, hb, hs, hst2⟩
      · intro hn
        exact absurd (Or.inr ⟨payload, store, e, hb, hs, hst2⟩) hn

/-- The gate is open on a fresh context over the sample app. -/
theorem gateOpen_sample : gateOpen (freshContext sampleApp) :=
  ⟨rfl, rfl, _, rfl, rfl⟩

/-- Witness for C5: an admitted request whose body does not decode. -/
theorem applyIPFilters_logs_one_audit_record_witness :
    gateOpen (freshContext sampleApp) ∧ mayWrite (freshContext sampleApp) ∧
    ∃ rec,
      auditsLogged (applyIPFilters (freshContext sampleApp) goodWriter badRequest).1.effects =
        auditsLogged (freshContext sampleApp).effects ++ [rec] ∧
      auditsMade (applyIPFilters (freshContext sampleApp) goodWriter badRequest).1.effects =
        auditsMade (freshContext sampleApp).effects ++ [("applyIPFilters", AuditStatus.Fail)] ∧
      rec.EventName = "applyIPFilters" ∧
      (rec.Status = AuditStatus.Fail ↔
        (decodeFailed badRequest ∨ storeFailed (freshContext sampleApp) badRequest)) ∧
      (¬ (decodeFailed badRequest ∨ storeFailed (freshContext sampleApp) badRequest) →
        rec.Status = AuditStatus.Success) :=
  ⟨gateOpen_sample, rfl,
    applyIPFilters_logs_one_audit_record (freshContext sampleApp) goodWriter badRequest
      gateOpen_sample rfl⟩

/-- C6 (as stated, refuted): an admitted request whose body does not decode
ends with status 500, not 400, and an audit record has been made and logged
with outcome `Fail`. -/
theorem applyIPFilters_bad_body_is_500_and_audited :
    gateOpen (freshContext sampleApp) ∧ mayWrite (freshContext sampleApp) ∧
    decodeFailed badRequest ∧
    (applyIPFilters (freshContext sampleApp) goodWriter badRequest).1.Err.map AppError.StatusCode
      = some 500 ∧
    (applyIPFilters (freshContext sampleApp) goodWriter badRequest).1.Err.map AppError.StatusCode
      ≠ some StatusBadRequest ∧
    auditsMade (applyIPFilters (freshContext sampleApp) goodWriter badRequest).1.effects
      = [("applyIPFilters", AuditStatus.Fail)] ∧
    auditsLogged (applyIPFilters (freshContext sampleApp) goodWriter badRequest).1.effects
      = [{ EventName := "applyIPFilters", Status := AuditStatus.Fail, Params := [] }] := by
  have e := applyIPFilters_of_admitted (freshContext sampleApp) goodWriter badRequest sampleStore
    gateOpen_sample rfl rfl
  rw [applyIPFiltersBody_of_decode_error _ goodWriter badRequest sampleStore _
    "unexpected end of JSON input" rfl] at e
  rw [e]
  refine ⟨gateOpen_sample, rfl, ⟨_, rfl⟩, ?_, ?_, ?_, ?_⟩ <;>
    simp [LogAuditRecWithLevel, Context.emit, NewAppError, AppError.StatusCode,
      StatusInternalServerError, StatusBadRequest, auditsMade, auditsLogged, freshContext]

/-- C6 (amended): on every `applyIPFilters` request that passes the gate and
the permission check but whose body does not decode, the handler ends with
the 500 error `api.context.ip_filtering.apply_ip_filters.app_error` carrying
the decoder's message; the audit record made before decoding is logged
exactly once, with outcome `Fail` and no parameters; the store's
`ApplyIPFilters` is never called, no goroutine is started and nothing is
written. -/
theorem applyIPFilters_of_bad_body (c : Context) (w : ResponseWriter) (r : Request) (e : String)
    (hg : gateOpen c) (hp : mayWrite c) (hb : r.Body = Except.error e) :
    (applyIPFilters c w r).1.Err = some (AppError.app "applyIPFilters"
      "api.context.ip_filtering.apply_ip_filters.app_error" e 500) ∧
    (applyIPFilters c w r).1.Err.map AppError.StatusCode = some StatusInternalServerError ∧
    auditsMade (applyIPFilters c w r).1.effects =
      auditsMade c.effects ++ [("applyIPFilters", AuditStatus.Fail)] ∧
    auditsLogged (applyIPFilters c w r).1.effects =
      auditsLogged c.effects ++
        [{ EventName := "applyIPFilters", Status := AuditStatus.Fail, Params := [] }] ∧
    storeApplies (applyIPFilters c w r).1.effects = storeApplies c.effects ∧
    jobsStarted (applyIPFilters c w r).1.effects = jobsStarted c.effects ∧
    (applyIPFilters c w r).2 = w := by
  obtain ⟨store, hs⟩ : ∃ store, c.App.IPFiltering = some store := by
    cases hi : c.App.IPFiltering with
    | none => have := hg.1; simp [hi] at this
    | some st => exact ⟨st, rfl⟩
  rw [applyIPFilters_of_admitted c w r store hg hp hs,
    applyIPFiltersBody_of_decode_error _ w r store _ e hb]
  refine ⟨?_, ?_, ?_, ?_, ?_, ?_, rfl⟩ <;>
    simp [LogAuditRecWithLevel, Context.emit, NewAppError, AppError.StatusCode,
      StatusInternalServerError, auditsMade, auditsLogged, storeApplies, jobsStarted,
      List.filterMap_append]

/-- Witness for C6: the sample app, a body that does not decode. -/
theorem applyIPFilters_of_bad_body_witness :
    gateOpen (freshContext sampleApp) ∧ mayWrite (freshContext sampleApp) ∧
    badRequest.Body = Except.error "unexpected end of JSON input" ∧
    storeApplies (applyIPFilters (freshContext sampleApp) goodWriter badRequest).1.effects =
      storeApplies (freshContext sampleApp).effects :=
  ⟨gateOpen_sample, rfl, rfl,
    (applyIPFilters_of_bad_body (freshContext sampleApp) goodWriter badRequest
      "unexpected end of JSON input" gateOpen_sample rfl rfl).2.2.2.2.1⟩

/-- C7 (as stated, refuted): an admitted request with a decodable body on
which the store succeeds, sent over a connection whose write fails, ends with
an error stored and nothing written. -/
theorem applyIPFilters_success_may_store_error :
    gateOpen (freshContext sampleApp) ∧ mayWrite (freshContext sampleApp) ∧
    goodRequest.Body = Except.ok ["198.51.100.0/24"] ∧
    sampleStore.ApplyIPFilters ["198.51.100.0/24"] =
      (["127.0.0.1/32", "198.51.100.0/24"], none) ∧
    (applyIPFilters (freshContext sampleApp) brokenWriter goodRequest).1.Err =
      some (AppError.app "getIPFilters" "api.context.ip_filtering.get_ip_filters.app_error"
        "write: broken pipe" 500) ∧
    (applyIPFilters (freshContext sampleApp) brokenWriter goodRequest).2.written = [] := by
  have e := applyIPFilters_of_admitted (freshContext sampleApp) brokenWriter goodRequest sampleStore
    gateOpen_sample rfl rfl
  obtain ⟨-, -, -, -, -, -, h7⟩ :=
    applyIPFiltersBody_of_success
      (((freshContext sampleApp).emit
          (Effect.permissionCheck Permission.PermissionSysconsoleWriteIPFilters)).emit
        (Effect.auditMake "applyIPFilters" AuditStatus.Fail))
      brokenWriter goodRequest sampleStore
      { EventName := "applyIPFilters", Status := AuditStatus.Fail, Params := [] }
      ["198.51.100.0/24"] ["127.0.0.1/32", "198.51.100.0/24"] rfl rfl
  obtain ⟨h8, h9⟩ := h7 "write: broken pipe" rfl
  refine ⟨gateOpen_sample, rfl, rfl, rfl, ?_, ?_⟩
  · rw [e]
    exact h9
  · rw [e]
    exact congrArg ResponseWriter.written h8

/-- C7 (amended): on every admitted `applyIPFilters` request with a decodable
body (the empty list included) on which the store succeeds, the store's
`ApplyIPFilters` is called exactly once, with the decoded payload, and the
one audit record logged has outcome `Success` and the payload as its
`IPFilter` parameter; when writing the response succeeds, the response body
is the JSON encoding of the value the store returned (not of the request
payload) and no error is set. -/
theorem applyIPFilters_of_success (c : Context) (w : ResponseWriter) (r : Request)
    (store : IPFilteringInterface) (payload updated : AllowedIPRanges)
    (hg : gateOpen c) (hp : mayWrite c) (hs : c.App.IPFiltering = some store)
    (hb : r.Body = Except.ok payload) (hst : store.ApplyIPFilters payload = (updated, none)) :
    storeApplies (applyIPFilters c w r).1.effects = storeApplies c.effects ++ [payload] ∧
    auditsLogged (applyIPFilters c w r).1.effects =
      auditsLogged c.effects ++
        [{ EventName := "applyIPFilters", Status := AuditStatus.Success,
           Params := [("IPFilter", payload)] }] ∧
    (w.writeErr = none →
      (applyIPFilters c w r).2.written = w.written ++ [Body.ranges updated] ∧
      (applyIPFilters c w r).1.Err = c.Err) := by
  obtain ⟨h1, h2, -, h4, -, h6, -⟩ :=
    applyIPFiltersBody_of_success
      ((c.emit (Effect.permissionCheck Permission.PermissionSysconsoleWriteIPFilters)).emit
        (Effect.auditMake "applyIPFilters" AuditStatus.Fail))
      w r store { EventName := "applyIPFilters", Status := AuditStatus.Fail, Params := [] }
      payload updated hb hst
  rw [applyIPFilters_of_admitted c w r store hg hp hs, h1]
  refine ⟨?_, ?_, fun hw => ?_⟩
  · simp only [LogAuditRecWithLevel, Context.emit] at h2 ⊢
    simp only [storeApplies, List.filterMap_append] at h2 ⊢
    rw [h2]
    simp
  · simp only [LogAuditRecWithLevel, Context.emit] at h4 ⊢
    simp only [auditsLogged, List.filterMap_append] at h4 ⊢
    rw [h4]
    simp [AuditRecord.Success, AddEventParameterAuditable]
  · obtain ⟨h6a, h6b⟩ := h6 hw
    refine ⟨h6a, ?_⟩
    simp only [LogAuditRecWithLevel, Context.emit] at h6b ⊢
    exact h6b

/-- Witness for C7: the empty list of ranges, written by a principal with
the permission; the store answers with one range. -/
theorem applyIPFilters_of_success_witness :
    gateOpen (freshContext sampleApp) ∧ mayWrite (freshContext sampleApp) ∧
    emptyRequest.Body = Except.ok [] ∧
    sampleStore.ApplyIPFilters [] = (["127.0.0.1/32"], none) ∧
    goodWriter.writeErr = none ∧
    storeApplies (applyIPFilters (freshContext sampleApp) goodWriter emptyRequest).1.effects =
      storeApplies (freshContext sampleApp).effects ++ [[]] ∧
    (applyIPFilters (freshContext sampleApp) goodWriter emptyRequest).2.written =
      goodWriter.written ++ [Body.ranges ["127.0.0.1/32"]] ∧
    (applyIPFilters (freshContext sampleApp) goodWriter emptyRequest).1.Err =
      (freshContext sampleApp).Err :=
  ⟨gateOpen_sample, rfl, rfl, rfl, rfl,
    (applyIPFilters_of_success (freshContext sampleApp) goodWriter emptyRequest sampleStore []
      ["127.0.0.1/32"] gateOpen_sample rfl rfl rfl rfl).1,
    ((applyIPFilters_of_success (freshContext sampleApp) goodWriter emptyRequest sampleStore []
      ["127.0.0.1/32"] gateOpen_sample rfl rfl rfl rfl).2.2 rfl).1,
    ((applyIPFilters_of_success (freshContext sampleApp) goodWriter emptyRequest sampleStore []
      ["127.0.0.1/32"] gateOpen_sample rfl rfl rfl rfl).2.2 rfl).2⟩

/-! ## The notification goroutine -/

/-- With a resolved initiating user the loop makes one send per user, in
order, logs the failed ones and does not stop early. -/
theorem sendLoop_of_resolved (app : App) (job : Job) (first : User) (rest : List User) :
    ∀ (users : List User) (run : JobRun),
      (sendLoop app job (first :: rest) users run).sends =
        run.sends ++ users.map (sendArgs app job first) ∧
      (sendLoop app job (first :: rest) users run).logs =
        run.logs ++ sendErrors app job first run.sends.length users ∧
      (sendLoop app job (first :: rest) users run).panicked = run.panicked := by
  intro users
  induction users with
  | nil => intro run; simp [sendLoop, sendErrors]
  | cons user more ih =>
    intro run
    cases hsend : app.SendIPFiltersChangedEmail run.sends.length (sendArgs app job first user) with
    | none =>
      have h := ih { run with sends := run.sends ++ [sendArgs app job first user] }
      simp only [sendLoop, hsend, sendErrors]
      simp only [List.length_append, List.length_singleton] at h
      simpa using h
    | some e =>
      have h := ih { run with
        sends := run.sends ++ [sendArgs app job first user],
        logs := run.logs ++ [("Error while sending IP filters changed email", e)] }
      simp only [sendLoop, hsend, sendErrors]
      simp only [List.length_append, List.length_singleton] at h
      simpa using h

/-- With an empty `initiatingUser` slice the loop panics at the first user
and sends nothing; with no user to visit it does nothing. -/
theorem sendLoop_of_unresolved (app : App) (job : Job) (users : List User) (run : JobRun) :
    sendLoop app job [] users run =
      match users with
      | [] => run
      | _ :: _ => { run with panicked := true } := by
  cases users <;> simp [sendLoop]

/-- The goroutine is the loop run after the two lookups, started from the
lookups' log lines. -/
theorem notificationJob_eq (app : App) (job : Job) :
    notificationJob app job =
      sendLoop app job (app.GetProfileByIds [job.UserId]).1 app.GetSystemAdminProfiles.1
        { logs := lookupErrors app job, sends := [], panicked := false } := by
  unfold notificationJob lookupErrors
  rcases h1 : app.GetProfileByIds [job.UserId] with ⟨iu, _ | e1⟩ <;>
    rcases h2 : app.GetSystemAdminProfiles with ⟨us, _ | e2⟩ <;> simp

/-- The goroutine panics exactly when the initiating user's lookup gave an
empty slice while there is at least one administrator to visit. -/
theorem notificationJob_panicked_iff (app : App) (job : Job) :
    (notificationJob app job).panicked = true ↔
      ((app.GetProfileByIds [job.UserId]).1 = [] ∧ app.GetSystemAdminProfiles.1 ≠ []) := by
  rw [notificationJob_eq]
  cases hi : (app.GetProfileByIds [job.UserId]).1 with
  | nil =>
    rw [sendLoop_of_unresolved]
    cases hu : app.GetSystemAdminProfiles.1 <;> simp
  | cons first rest =>
    rw [(sendLoop_of_resolved app job first rest _ _).2.2]
    simp

/-- C9: for every list of administrators returned by `GetSystemAdminProfiles`
and every pattern of send failures, provided the initiating user's profile
was resolved, the goroutine attempts exactly one `SendIPFiltersChangedEmail`
per administrator, in list order; a failed send only adds a log line, every
other send is still attempted, none is repeated, and the run does not
panic. -/
theorem fanout_sends_once_to_every_admin (app : App) (job : Job) (first : User)
    (rest : List User) (h : (app.GetProfileByIds [job.UserId]).1 = first :: rest) :
    (notificationJob app job).sends =
      app.GetSystemAdminProfiles.1.map (sendArgs app job first) ∧
    (notificationJob app job).sends.length = app.GetSystemAdminProfiles.1.length ∧
    (notificationJob app job).sends.map SendArgs.email =
      app.GetSystemAdminProfiles.1.map User.Email ∧
    (notificationJob app job).logs =
      lookupErrors app job ++ sendErrors app job first 0 app.GetSystemAdminProfiles.1 ∧
    (notificationJob app job).panicked = false := by
  rw [notificationJob_eq, h]
  obtain ⟨h1, h2, h3⟩ := sendLoop_of_resolved app job first rest app.GetSystemAdminProfiles.1
    { logs := lookupErrors app job, sends := [], panicked := false }
  rw [h1, h2, h3]
  refine ⟨by simp, by simp, ?_, by simp, rfl⟩
  simp only [List.nil_append, List.map_map]
  rfl

/-- Witness for C9: two administrators, the send to the first one fails, the
send to the second one is still made. -/
theorem fanout_sends_once_to_every_admin_witness :
    (sampleApp.GetProfileByIds [sampleJob.UserId]).1 = sampleActor :: [] ∧
    sampleApp.SendIPFiltersChangedEmail 0 (sendArgs sampleApp sampleJob sampleActor
      { Id := "a1", Email := "root@example.com", Locale := "en" }) =
        some "smtp: connection refused" ∧
    (notificationJob sampleApp sampleJob).sends.map SendArgs.email =
      sampleApp.GetSystemAdminProfiles.1.map User.Email :=
  ⟨rfl, rfl, (fanout_sends_once_to_every_admin sampleApp sampleJob sampleActor [] rfl).2.2.1⟩

/-- C10 (the code at the failing input): when `GetProfileByIds` fails, with a
nil slice, and two administrators exist, the goroutine logs the lookup error
and then stops in the index-out-of-range panic of `initiatingUser[0]`, before
any send. -/
theorem notificationJob_panics_on_failed_lookup :
    lookupFailsApp.GetProfileByIds [sampleJob.UserId] = ([], some "sql: connection is closed") ∧
    lookupFailsApp.GetSystemAdminProfiles = (sampleAdmins, none) ∧
    (notificationJob lookupFailsApp sampleJob).panicked = true ∧
    (notificationJob lookupFailsApp sampleJob).sends = [] ∧
    (notificationJob lookupFailsApp sampleJob).logs =
      [("Failed to get initiating user", "sql: connection is closed")] := by
  refine ⟨rfl, rfl, ?_, ?_, ?_⟩
  · exact (notificationJob_panicked_iff lookupFailsApp sampleJob).2 ⟨rfl, by simp [lookupFailsApp, sampleApp, sampleAdmins]⟩
  · rw [notificationJob_eq]
    rfl
  · rw [notificationJob_eq]
    rfl

/-! ## What the notification job carries -/

/-- The owner address does not change when effects are appended. -/
theorem ownerEmail_emit (c : Context) (e : Effect) : ownerEmail (c.emit e) = ownerEmail c := rfl

/-- Every admitted write on which the store succeeds starts one goroutine,
for the session's user and the owner address. -/
theorem applyIPFilters_job_of_success (c : Context) (w : ResponseWriter) (r : Request)
    (store : IPFilteringInterface) (payload updated : AllowedIPRanges)
    (hg : gateOpen c) (hp : mayWrite c) (hs : c.App.IPFiltering = some store)
    (hb : r.Body = Except.ok payload) (hst : store.ApplyIPFilters payload = (updated, none)) :
    jobsStarted (applyIPFilters c w r).1.effects =
      jobsStarted c.effects ++ [{ UserId := c.Session.UserId,
                                  cloudWorkspaceOwnerEmailAddress := ownerEmail c }] := by
  obtain ⟨-, -, h3, -, -, -, -⟩ :=
    applyIPFiltersBody_of_success
      ((c.emit (Effect.permissionCheck Permission.PermissionSysconsoleWriteIPFilters)).emit
        (Effect.auditMake "applyIPFilters" AuditStatus.Fail))
      w r store { EventName := "applyIPFilters", Status := AuditStatus.Fail, Params := [] }
      payload updated hb hst
  rw [applyIPFilters_of_admitted c w r store hg hp hs]
  rw [ownerEmail_emit, ownerEmail_emit] at h3
  simp only [LogAuditRecWithLevel, Context.emit] at h3 ⊢
  simp only [jobsStarted, List.filterMap_append] at h3 ⊢
  rw [h3]
  simp

/-- A write that the gate refuses, that lacks the permission, whose body does
not decode or on which the store fails starts no goroutine. -/
theorem applyIPFilters_job_of_failure (c : Context) (w : ResponseWriter) (r : Request)
    (h : ¬ gateOpen c ∨ ¬ mayWrite c ∨ decodeFailed r ∨ storeFailed c r) :
    jobsStarted (applyIPFilters c w r).1.effects = jobsStarted c.effects := by
  by_cases hg : gateOpen c
  · by_cases hp : mayWrite c
    · obtain ⟨store, hs⟩ : ∃ store, c.App.IPFiltering = some store := by
        cases hi : c.App.IPFiltering with
        | none => have := hg.1; simp [hi] at this
        | some st => exact ⟨st, rfl⟩
      rw [applyIPFilters_of_admitted c w r store hg hp hs]
      rcases h with h | h | ⟨e, he⟩ | ⟨payload, st2, e, hb, hs2, he⟩
      · exact absurd hg h
      · exact absurd hp h
      · rw [applyIPFiltersBody_of_decode_error _ w r store _ e he]
        simp [LogAuditRecWithLevel, Context.emit, jobsStarted, List.filterMap_append]
      · rw [hs] at hs2
        injection hs2 with hs2
        subst hs2
        rw [applyIPFiltersBody_of_store_error _ w r store _ payload e hb he]
        simp [LogAuditRecWithLevel, Context.emit, jobsStarted, List.filterMap_append]
    · have hp2 : c.App.SessionHasPermissionTo c.Session
          Permission.PermissionSysconsoleWriteIPFilters = false := by
        unfold mayWrite at hp
        simpa using hp
      rw [applyIPFilters_of_denied c w r hg hp2]
      simp [SetPermissionError, Context.emit, jobsStarted, List.filterMap_append]
  · have e : applyIPFilters c w r = ({ c with Err := some (NewAppError "applyIPFilters"
        "api.context.ip_filtering.not_available.app_error" "" StatusNotImplemented) }, w) := by
      unfold applyIPFilters; rw [ensure_of_closed c "applyIPFilters" hg]
    rw [e]

/-- C8 (as stated, refuted): two servers that differ only in what the store
returns from `ApplyIPFilters` answer the same request with different
resulting states, yet start the same goroutine, and the two goroutines make
the same sends with the same arguments: the job does not carry the state the
store returned. -/
theorem notification_job_ignores_store_result :
    (applyIPFilters (freshContext sampleApp) goodWriter goodRequest).2.written =
      [Body.ranges ["127.0.0.1/32", "198.51.100.0/24"]] ∧
    (applyIPFilters (freshContext { sampleApp with IPFiltering := some otherStore }) goodWriter
      goodRequest).2.written = [Body.ranges ["203.0.113.0/24"]] ∧
    jobsStarted (applyIPFilters (freshContext sampleApp) goodWriter goodRequest).1.effects =
      [sampleJob] ∧
    jobsStarted (applyIPFilters (freshContext { sampleApp with IPFiltering := some otherStore })
      goodWriter goodRequest).1.effects = [sampleJob] ∧
    (notificationJob sampleApp sampleJob).sends =
      (notificationJob { sampleApp with IPFiltering := some otherStore } sampleJob).sends ∧
    (notificationJob sampleApp sampleJob).sends.length = 2 := by
  have gB : gateOpen (freshContext { sampleApp with IPFiltering := some otherStore }) :=
    ⟨rfl, rfl, _, rfl, rfl⟩
  have eA := applyIPFilters_of_admitted (freshContext sampleApp) goodWriter goodRequest sampleStore
    gateOpen_sample rfl rfl
  have eB := applyIPFilters_of_admitted (freshContext { sampleApp with IPFiltering := some otherStore })
    goodWriter goodRequest otherStore gB rfl rfl
  obtain ⟨-, -, -, -, -, hA, -⟩ :=
    applyIPFiltersBody_of_success
      (((freshContext sampleApp).emit
          (Effect.permissionCheck Permission.PermissionSysconsoleWriteIPFilters)).emit
        (Effect.auditMake "applyIPFilters" AuditStatus.Fail))
      goodWriter goodRequest sampleStore
      { EventName := "applyIPFilters", Status := AuditStatus.Fail, Params := [] }
      ["198.51.100.0/24"] ["127.0.0.1/32", "198.51.100.0/24"] rfl rfl
  obtain ⟨-, -, -, -, -, hB, -⟩ :=
    applyIPFiltersBody_of_success
      (((freshContext { sampleApp with IPFiltering := some otherStore }).emit
          (Effect.permissionCheck Permission.PermissionSysconsoleWriteIPFilters)).emit
        (Effect.auditMake "applyIPFilters" AuditStatus.Fail))
      goodWriter goodRequest otherStore
      { EventName := "applyIPFilters", Status := AuditStatus.Fail, Params := [] }
      ["198.51.100.0/24"] ["203.0.113.0/24"] rfl rfl
  refine ⟨?_, ?_, ?_, ?_, ?_, ?_⟩
  · rw [eA]
    exact (hA rfl).1
  · rw [eB]
    exact (hB rfl).1
  · exact applyIPFilters_job_of_success (freshContext sampleApp) goodWriter goodRequest sampleStore
      ["198.51.100.0/24"] ["127.0.0.1/32", "198.51.100.0/24"] gateOpen_sample rfl rfl rfl rfl
  · exact applyIPFilters_job_of_success (freshContext { sampleApp with IPFiltering := some otherStore })
      goodWriter goodRequest otherStore ["198.51.100.0/24"] ["203.0.113.0/24"] gB rfl rfl rfl rfl
  · rw [notificationJob_eq, notificationJob_eq]
    rfl
  · rw [notificationJob_eq]
    rfl

/-- C8 (amended): `applyIPFilters` starts a goroutine exactly when the store
mutation succeeded: exactly one on success, none when the gate, the
permission check, the decode or the store call fails. The goroutine carries
the acting principal's user id and the workspace owner's address, which are
read from the context and not from the store's result; every send it makes
has as arguments the recipient's address and locale, the first profile
resolved for the acting principal, the site and CWS URLs, and whether the
recipient is the workspace owner. -/
theorem applyIPFilters_starts_job_iff_store_succeeded (c : Context) (w : ResponseWriter)
    (r : Request) :
    (∀ store payload updated, gateOpen c → mayWrite c → c.App.IPFiltering = some store →
      r.Body = Except.ok payload → store.ApplyIPFilters payload = (updated, none) →
      jobsStarted (applyIPFilters c w r).1.effects =
        jobsStarted c.effects ++ [{ UserId := c.Session.UserId,
                                    cloudWorkspaceOwnerEmailAddress := ownerEmail c }]) ∧
    ((¬ gateOpen c ∨ ¬ mayWrite c ∨ decodeFailed r ∨ storeFailed c r) →
      jobsStarted (applyIPFilters c w r).1.effects = jobsStarted c.effects) ∧
    (∀ job a, a ∈ (notificationJob c.App job).sends →
      ∃ first rest user, (c.App.GetProfileByIds [job.UserId]).1 = first :: rest ∧
        user ∈ c.App.GetSystemAdminProfiles.1 ∧
        a = { email := user.Email, initiatingUser := first, siteURL := c.App.SiteURL,
              cwsURL := c.App.CWSURL, locale := user.Locale,
              isWorkspaceOwner := job.cloudWorkspaceOwnerEmailAddress == user.Email }) := by
  refine ⟨fun store payload updated hg hp hs hb hst =>
      applyIPFilters_job_of_success c w r store payload updated hg hp hs hb hst,
    applyIPFilters_job_of_failure c w r, fun job a ha => ?_⟩
  rw [notificationJob_eq] at ha
  cases hi : (c.App.GetProfileByIds [job.UserId]).1 with
  | nil =>
    rw [hi, sendLoop_of_unresolved] at ha
    cases hu : c.App.GetSystemAdminProfiles.1 <;> rw [hu] at ha <;> simp at ha
  | cons first rest =>
    rw [hi, (sendLoop_of_resolved c.App job first rest _ _).1] at ha
    simp only [List.nil_append, List.mem_map] at ha
    obtain ⟨user, hu, rfl⟩ := ha
    exact ⟨first, rest, user, rfl, hu, rfl⟩

/-- Witness for C8: a successful write on the sample app starts one
goroutine, for user `u1`. -/
theorem applyIPFilters_starts_job_iff_store_succeeded_witness :
    gateOpen (freshContext sampleApp) ∧ mayWrite (freshContext sampleApp) ∧
    goodRequest.Body = Except.ok ["198.51.100.0/24"] ∧
    sampleStore.ApplyIPFilters ["198.51.100.0/24"] =
      (["127.0.0.1/32", "198.51.100.0/24"], none) ∧
    jobsStarted (applyIPFilters (freshContext sampleApp) goodWriter goodRequest).1.effects =
      jobsStarted (freshContext sampleApp).effects ++
        [{ UserId := (freshContext sampleApp).Session.UserId,
           cloudWorkspaceOwnerEmailAddress := ownerEmail (freshContext sampleApp) }] :=
  ⟨gateOpen_sample, rfl, rfl, rfl,
    (applyIPFilters_starts_job_iff_store_succeeded (freshContext sampleApp) goodWriter
      goodRequest).1 sampleStore ["198.51.100.0/24"] ["127.0.0.1/32", "198.51.100.0/24"]
      gateOpen_sample rfl rfl rfl rfl⟩

end Api4
